import Mathlib

/-!
Shallow embedding of the `RAGOrchestrator` request pipeline from
`main_app.py` of the rag-chat repository, together with theorems that
settle the specification claims about it.

The three remote services (embedding HTTP service, Qdrant vector index,
LLM answer HTTP service) are opaque: their behaviour for one request is
captured by an `Env` record.  Python values appearing in JSON bodies are
modelled by `JsonValue`; Python exceptions that the orchestrator code can
raise are modelled by `PyErr` and propagated through `Except`.
-/

/-- A JSON value as decoded by `response.json()` in Python. Numbers are
modelled as integers since the orchestrator never performs arithmetic on
them, only truthiness tests. -/
inductive JsonValue where
  | null
  | bool (b : Bool)
  | num (n : Int)
  | str (s : String)
  | arr (items : List JsonValue)
  | obj (fields : List (String × JsonValue))

/-- Python exceptions that escape the modelled code paths. -/
inductive PyErr where
  | attributeError
  | keyError (key : String)
  | typeError
  | transportFault
deriving DecidableEq

/-- String rendering of a Python exception, used by the f-string
interpolations in the FORMAT error branch. -/
def PyErr.message : PyErr → String
  | .attributeError => "AttributeError"
  | .keyError k => "KeyError: " ++ k
  | .typeError => "TypeError"
  | .transportFault => "TransportFault"

/-- Outcome of one `requests.post` call: either the request itself raises a
`RequestException` (network error / timeout), or a response arrives with a
status code and a body (`none` = the body is not valid JSON, in which case
`response.json()` raises a `JSONDecodeError`, a `RequestException`
subclass). -/
inductive HttpResult where
  | requestError
  | response (status : Nat) (body : Option JsonValue)

/-- Python `dict.get(key)` semantics restricted to the modelled values:
defined on JSON objects (returning `none` for a missing key, mirroring
`None`); any other receiver raises `AttributeError`, exactly as
`response.json().get(...)` does when the decoded body is not a dict. -/
def dictGet (v : JsonValue) (key : String) : Except PyErr (Option JsonValue) :=
  match v with
  | .obj fields => .ok (jsonLookup fields key)
  | _ => .error .attributeError
where
  jsonLookup : List (String × JsonValue) → String → Option JsonValue
    | [], _ => none
    | (k, v) :: rest, key => if k = key then some v else jsonLookup rest key

/-- Embedding of `RAGOrchestrator._make_api_request`: POST the payload,
`raise_for_status`, decode JSON, `.get(response_key)`; every
`RequestException` is caught and converted to the stage sentinel (`None`
for the embedding key, `[]` otherwise). -/
def make_api_request (http : HttpResult) (response_key : String) :
    Except PyErr (Option JsonValue) :=
  let sentinel : Option JsonValue :=
    if response_key = "embedding" then none else some (.arr [])
  match http with
  | .requestError => .ok sentinel
  | .response status body =>
    if 400 ≤ status ∧ status < 600 then .ok sentinel
    else
      match body with
      | none => .ok sentinel
      | some json => dictGet json response_key

/-- Embedding of `RAGOrchestrator.get_embedding`. -/
def get_embedding (http : HttpResult) : Except PyErr (Option JsonValue) :=
  make_api_request http "embedding"

/-- Embedding of `RAGOrchestrator.query_llm`: the raw `_make_api_request`
result is kept only when it is a Python list (`isinstance(result, list)`),
and replaced by `[]` otherwise. -/
def query_llm (http : HttpResult) : Except PyErr (List JsonValue) :=
  match make_api_request http "answer" with
  | .error e => .error e
  | .ok (some (.arr items)) => .ok items
  | .ok _ => .ok []

/-- Python truthiness of a decoded JSON value (`not x` negates this). -/
def JsonValue.isTruthy : JsonValue → Bool
  | .null => false
  | .bool b => b
  | .num n => n != 0
  | .str s => s != ""
  | .arr items => !items.isEmpty
  | .obj fields => !fields.isEmpty

/-- Truthiness test `not question_embedding` applied to an
`Optional[list[float]]`-typed Python value. -/
def pyNotOpt : Option JsonValue → Bool
  | none => true
  | some v => !v.isTruthy

/-- Payload of one Qdrant search hit, exposing the two fields the
orchestrator reads (`payload['text']`, `payload['source_file']`). -/
structure SearchPayload where
  text : String
  source_file : String
deriving DecidableEq

/-- One ranked record returned by `qdrant_client.search`. -/
structure SearchResult where
  payload : SearchPayload
deriving DecidableEq

/-- A context chunk `{"text": ..., "file": ...}` sent to the LLM service. -/
structure ContextChunk where
  text : String
  file : String
deriving DecidableEq

/-- The order `sorted` uses on Python strings: code-point lexicographic
comparison, stated on the underlying character lists. -/
def pyStrLe (a b : String) : Prop :=
  a.data ≤ b.data

instance : DecidableRel pyStrLe :=
  fun a b => inferInstanceAs (Decidable (a.data ≤ b.data))

instance : IsTrans String pyStrLe :=
  ⟨fun _ _ _ h1 h2 => le_trans h1 h2⟩

instance : IsTotal String pyStrLe :=
  ⟨fun a b => le_total a.data b.data⟩

instance : IsAntisymm String pyStrLe :=
  ⟨fun a b h1 h2 => by
    cases a; cases b
    exact congrArg String.mk (le_antisymm h1 h2)⟩

/-- The sorting order agrees with the standard linear order on `String`. -/
theorem pyStrLe_iff_le (a b : String) : pyStrLe a b ↔ a ≤ b :=
  Iff.symm String.le_iff_toList_le

/-- Python `sorted` on a list of strings (lexicographic order). -/
def pySorted (l : List String) : List String :=
  l.insertionSort pyStrLe

/-- Embedding of `RAGOrchestrator._search_and_prepare_context`, given the
list of records the Qdrant client returned: on an empty result, `([], [])`;
otherwise the chunk list and `sorted(list(set(source_files)))`. -/
def search_and_prepare_context (search_results : List SearchResult) :
    List ContextChunk × List String :=
  if search_results.isEmpty then ([], [])
  else
    let context_chunks := search_results.map fun result =>
      { text := result.payload.text, file := result.payload.source_file }
    let sources := pySorted (search_results.map fun result =>
      result.payload.source_file).dedup
    (context_chunks, sources)

/-- The tuple `process_query_for_gradio` hands to the Gradio layer:
`gr.Dataset` components are represented by their `samples` lists, the
`full_response_state` by the raw structured answer, and the always-`None`
preview slot by `none`. -/
structure GradioOutput where
  answer_samples : List (List JsonValue)
  sources_samples : List (List JsonValue)
  full_response_state : List JsonValue
  source_details : String
  file_preview : Option JsonValue

/-- Behaviour of the three opaque remote services for one request: the HTTP
outcome of the embedding call, the Qdrant search outcome (`.error ()` =
the client library raises a transport fault), and the HTTP outcome of the
answer call. -/
structure Env where
  embedHttp : HttpResult
  search : Except Unit (List SearchResult)
  answerHttp : HttpResult

/-- The remote clients an execution actually invoked, in order. -/
inductive RemoteCall where
  | embed
  | search
  | answer
deriving DecidableEq

/-- Python subscript `v[key]` with a string key: defined on dicts, raising
`KeyError` for a missing key and `TypeError` on any non-dict value. -/
def pySubscript (v : JsonValue) (key : String) : Except PyErr JsonValue :=
  match v with
  | .obj fields =>
    match dictGet.jsonLookup fields key with
    | some x => .ok x
    | none => .error (.keyError key)
  | _ => .error .typeError

/-- Step 4 of the pipeline: `[[item['paragraph']] for item in
structured_answer]`, evaluated left to right, raising `KeyError` on a dict
without the key and `TypeError` on a non-dict item. -/
def build_answer_data : List JsonValue → Except PyErr (List (List JsonValue))
  | [] => .ok []
  | item :: rest =>
    match pySubscript item "paragraph" with
    | .ok p =>
      match build_answer_data rest with
      | .ok tail => .ok ([p] :: tail)
      | .error e => .error e
    | .error e => .error e

/-- Embedding of `RAGOrchestrator.process_query_for_gradio`: the four-step
pipeline with its early exits, returning the Gradio tuple (or an uncaught
Python exception) together with the list of remote clients invoked. -/
def process_query_for_gradio (env : Env) (question : String) :
    Except PyErr GradioOutput × List RemoteCall :=
  if question = "" then
    (.ok ⟨[], [[.str ""]], [], "*Введите вопрос...*", none⟩, [])
  else
    match get_embedding env.embedHttp with
    | .error e => (.error e, [.embed])
    | .ok question_embedding =>
      if pyNotOpt question_embedding then
        (.ok ⟨[[.str "Ошибка: не удалось получить вектор для вопроса."]],
              [[.str ""]], [], "*Ошибка*", none⟩, [.embed])
      else
        match env.search with
        | .error _ => (.error .transportFault, [.embed, .search])
        | .ok search_results =>
          let cs := search_and_prepare_context search_results
          let sources_data := cs.2.map fun source => [JsonValue.str source]
          if cs.1.isEmpty then
            (.ok ⟨[[.str "В базе знаний не найдено релевантного контекста."]],
                  sources_data, [], "*Контекст не найден*", none⟩,
             [.embed, .search])
          else
            match query_llm env.answerHttp with
            | .error e => (.error e, [.embed, .search, .answer])
            | .ok structured_answer =>
              if structured_answer.isEmpty then
                (.ok ⟨[[.str "Ошибка: LLM не смог сгенерировать ответ."]],
                      sources_data, [], "*Ошибка*", none⟩,
                 [.embed, .search, .answer])
              else
                match build_answer_data structured_answer with
                | .ok answer_data =>
                  (.ok ⟨answer_data, sources_data, structured_answer,
                        "*Выберите абзац из ответа...*", none⟩,
                   [.embed, .search, .answer])
                | .error e =>
                  (.ok ⟨[[.str ("Внутренняя ошибка в интерфейсе: " ++ e.message)]],
                        sources_data, [], "Ошибка: " ++ e.message, none⟩,
                   [.embed, .search, .answer])

/-! ### Fixtures: concrete service behaviours used by witnesses -/

/-- A successful embedding-service response carrying a one-element vector. -/
def goodEmbedHttp : HttpResult :=
  .response 200 (some (.obj [("embedding", .arr [.num 1])]))

/-- A ranked index hit from `policy_a.pdf`. -/
def hitA : SearchResult := ⟨⟨"Отпуск оформляется по заявлению.", "policy_a.pdf"⟩⟩

/-- A ranked index hit from `policy_b.pdf`. -/
def hitB : SearchResult := ⟨⟨"Срок согласования составляет три дня.", "policy_b.pdf"⟩⟩

/-- A second ranked index hit from `policy_a.pdf` (duplicate source file). -/
def hitA2 : SearchResult := ⟨⟨"Заявление подается за две недели.", "policy_a.pdf"⟩⟩

/-- A successful LLM-service response with one well-formed paragraph record. -/
def goodAnswerHttp : HttpResult :=
  .response 200 (some (.obj [("answer", .arr [.obj [("paragraph", .str "Отпуск оформляется по заявлению.")]])]))

/-! ### Helper lemmas about the search stage -/

/-- Unfolding of the second component of `search_and_prepare_context`:
the source list is always the sorted deduplication of the hits'
`source_file` values (for an empty hit list both sides are `[]`). -/
theorem sources_eq (results : List SearchResult) :
    (search_and_prepare_context results).2 =
      pySorted (results.map fun result => result.payload.source_file).dedup := by
  cases results <;> rfl

/-- Unfolding of the first component of `search_and_prepare_context`. -/
theorem context_chunks_eq (results : List SearchResult) :
    (search_and_prepare_context results).1 =
      results.map fun result =>
        { text := result.payload.text, file := result.payload.source_file } := by
  cases results <;> rfl

/-- The source list is sorted in the Python string order. -/
theorem sources_sorted (results : List SearchResult) :
    ((search_and_prepare_context results).2).Sorted pyStrLe := by
  rw [sources_eq]
  exact List.sorted_insertionSort pyStrLe _

/-- The source list holds no duplicates. -/
theorem sources_nodup (results : List SearchResult) :
    ((search_and_prepare_context results).2).Nodup := by
  rw [sources_eq]
  exact ((List.perm_insertionSort pyStrLe _).symm).nodup (List.nodup_dedup _)

/-- Membership in the source list is exactly membership among the hits'
`source_file` values. -/
theorem sources_mem (results : List SearchResult) (s : String) :
    s ∈ (search_and_prepare_context results).2 ↔
      s ∈ results.map fun result => result.payload.source_file := by
  rw [sources_eq]
  unfold pySorted
  rw [List.mem_insertionSort, List.mem_dedup]

/-- A non-empty hit list yields a non-empty source list. -/
theorem sources_ne_nil (results : List SearchResult) (hne : results ≠ []) :
    (search_and_prepare_context results).2 ≠ [] := by
  cases results with
  | nil => exact absurd rfl hne
  | cons r l =>
    have hmem : r.payload.source_file ∈ (search_and_prepare_context (r :: l)).2 := by
      rw [sources_mem]
      exact List.mem_map_of_mem _ (List.mem_cons_self r l)
    exact List.ne_nil_of_mem hmem

/-! ### Claim C2 -/

/-- C2 counterexample: a whitespace-only question (a single space) is not
short-circuited by the `if not question` guard: the embedding client is
invoked, and the outcome (with an unreachable embedding service) is the
vectorize-error message, not the prompt-for-input outcome. -/
theorem C2_whitespace_not_short_circuited :
    (process_query_for_gradio ⟨.requestError, .ok [], .requestError⟩ " ").2 =
      [.embed] ∧
    (process_query_for_gradio ⟨.requestError, .ok [], .requestError⟩ " ").1 =
      .ok ⟨[[.str "Ошибка: не удалось получить вектор для вопроса."]],
           [[.str ""]], [], "*Ошибка*", none⟩ :=
  ⟨rfl, rfl⟩

/-- C2 (amended): for the empty question string (the only string the
Python guard `if not question` treats as falsy), `process_query_for_gradio`
returns the prompt-for-input outcome and invokes no remote client. -/
theorem C2_empty_question_short_circuits (env : Env) :
    process_query_for_gradio env "" =
      (.ok ⟨[], [[.str ""]], [], "*Введите вопрос...*", none⟩, []) :=
  rfl

/-! ### Claim C4 -/

/-- C4: for every non-empty question for which the embedding client
returns the `None` failure sentinel, the orchestrator returns the
could-not-vectorize terminal outcome and invokes neither the search client
nor the answer client (the call trace is exactly `[embed]`). -/
theorem C4_embedding_failure_terminal (env : Env) (question : String)
    (hq : question ≠ "") (hE : get_embedding env.embedHttp = .ok none) :
    process_query_for_gradio env question =
      (.ok ⟨[[.str "Ошибка: не удалось получить вектор для вопроса."]],
            [[.str ""]], [], "*Ошибка*", none⟩,
       [.embed]) := by
  simp only [process_query_for_gradio, if_neg hq, hE]
  rfl

/-- C4 witness: the theorem applied to an unreachable embedding service
and the concrete question of the spec's end-to-end example. -/
theorem C4_witness :
    process_query_for_gradio ⟨.requestError, .ok [hitA], goodAnswerHttp⟩
        "Как оформить отпуск?" =
      (.ok ⟨[[.str "Ошибка: не удалось получить вектор для вопроса."]],
            [[.str ""]], [], "*Ошибка*", none⟩,
       [.embed]) :=
  C4_embedding_failure_terminal _ _ (by decide) rfl

/-! ### Claim C5 -/

/-- C5: for every non-empty question whose embedding succeeds (a truthy
vector is returned) but for which the search client returns zero records,
the orchestrator returns the no-relevant-context terminal outcome and the
answer client is never invoked (the call trace is `[embed, search]`). -/
theorem C5_empty_search_terminal (env : Env) (question : String) (emb : JsonValue)
    (hq : question ≠ "") (hE : get_embedding env.embedHttp = .ok (some emb))
    (hT : emb.isTruthy = true) (hS : env.search = .ok []) :
    process_query_for_gradio env question =
      (.ok ⟨[[.str "В базе знаний не найдено релевантного контекста."]],
            [], [], "*Контекст не найден*", none⟩,
       [.embed, .search]) := by
  simp only [process_query_for_gradio, if_neg hq, hE, pyNotOpt, hT, hS]
  rfl

/-- C5 witness: the theorem applied to a healthy embedding service and an
index that returns no records. -/
theorem C5_witness :
    process_query_for_gradio ⟨goodEmbedHttp, .ok [], goodAnswerHttp⟩
        "Как оформить отпуск?" =
      (.ok ⟨[[.str "В базе знаний не найдено релевантного контекста."]],
            [], [], "*Контекст не найден*", none⟩,
       [.embed, .search]) :=
  C5_empty_search_terminal _ _ (.arr [.num 1]) (by decide) rfl rfl rfl

/-! ### Claim C1 -/

/-- C1 counterexample: with the index service raising a transport fault,
the pipeline result is a propagated raised fault, not any returned Gradio
tuple — in particular not the no-relevant-context outcome the claim says
it is observably identical to. -/
theorem C1_search_fault_uncaught :
    (process_query_for_gradio ⟨goodEmbedHttp, .error (), goodAnswerHttp⟩
        "Как оформить отпуск?").1 = .error .transportFault ∧
    ∀ o : GradioOutput,
      (process_query_for_gradio ⟨goodEmbedHttp, .error (), goodAnswerHttp⟩
          "Как оформить отпуск?").1 ≠ .ok o :=
  ⟨rfl, fun _ h => Except.noConfusion h⟩

/-- C1 (amended): when the search stage raises a transport fault, the
fault propagates uncaught across the orchestrator boundary (there is no
handler around the Qdrant call), so the failure does not surface as an
empty chunk list; the answer client is still never invoked. -/
theorem C1_search_fault_propagates (env : Env) (question : String) (emb : JsonValue)
    (hq : question ≠ "") (hE : get_embedding env.embedHttp = .ok (some emb))
    (hT : emb.isTruthy = true) (hS : env.search = .error ()) :
    process_query_for_gradio env question =
      (.error .transportFault, [.embed, .search]) := by
  simp only [process_query_for_gradio, if_neg hq, hE, pyNotOpt, hT, hS]
  rfl

/-- C1 witness: the amended theorem applied to a healthy embedding service
and an unreachable index. -/
theorem C1_witness :
    process_query_for_gradio ⟨goodEmbedHttp, .error (), .requestError⟩ "вопрос" =
      (.error .transportFault, [.embed, .search]) :=
  C1_search_fault_propagates _ _ (.arr [.num 1]) (by decide) rfl rfl rfl

/-! ### Claim C3 -/

/-- C3: for every non-empty hit list the source list equals the
lexicographically sorted deduplication of the `source_file` values of the
context chunks (so it is sorted, duplicate-free, contains no file not
attached to a chunk sent to the answer client), and it is unchanged under
any reordering of the hits or duplicate hits from the same files, i.e.
under any hit list with the same set of `source_file` values. -/
theorem C3_sources_sorted_dedup (results results' : List SearchResult)
    (_hne : results ≠ [])
    (hmem : (results'.map fun result => result.payload.source_file).toFinset =
            (results.map fun result => result.payload.source_file).toFinset) :
    (search_and_prepare_context results).2 =
      pySorted ((search_and_prepare_context results).1.map fun c => c.file).dedup ∧
    ((search_and_prepare_context results).2).Sorted pyStrLe ∧
    ((search_and_prepare_context results).2).Nodup ∧
    (search_and_prepare_context results').2 = (search_and_prepare_context results).2 := by
  refine ⟨?_, sources_sorted results, sources_nodup results, ?_⟩
  · rw [sources_eq, context_chunks_eq, List.map_map]
    rfl
  · have hd := List.toFinset_eq_iff_perm_dedup.mp hmem
    have hp : (search_and_prepare_context results').2.Perm
        (search_and_prepare_context results).2 := by
      rw [sources_eq, sources_eq]
      exact ((List.perm_insertionSort pyStrLe _).trans hd).trans
        (List.perm_insertionSort pyStrLe _).symm
    exact List.eq_of_perm_of_sorted hp (sources_sorted results') (sources_sorted results)

/-- C3 witness: the theorem applied to two and three hits spanning the two
files of the spec's end-to-end example, reordered and with a duplicate
source file, checking that `hne` and `hmem` hold there. -/
theorem C3_witness :
    (search_and_prepare_context [hitB, hitA]).2 =
      pySorted ((search_and_prepare_context [hitB, hitA]).1.map fun c => c.file).dedup ∧
    ((search_and_prepare_context [hitB, hitA]).2).Sorted pyStrLe ∧
    ((search_and_prepare_context [hitB, hitA]).2).Nodup ∧
    (search_and_prepare_context [hitA, hitA2, hitB]).2 =
      (search_and_prepare_context [hitB, hitA]).2 :=
  C3_sources_sorted_dedup [hitB, hitA] [hitA, hitA2, hitB] (by decide) (by decide)

/-! ### Claim C6 -/

/-- Failure conditions of one HTTP call that `_make_api_request` actually
converts into the sentinel: the request raising a `RequestException`
(network error / timeout), an HTTP error status (4xx / 5xx raised by
`raise_for_status`), or a body that is not valid JSON (the
`JSONDecodeError` raised by `response.json()` is a `RequestException`
subclass). -/
def handled_failure (http : HttpResult) : Bool :=
  match http with
  | .requestError => true
  | .response status body =>
    (decide (400 ≤ status) && decide (status < 600)) || body.isNone

/-- C6 counterexample: a success response whose body is valid JSON but not
a JSON object (here the array `[1, 2]`) is a malformed body on which
`get_embedding` raises an uncaught `AttributeError` (from
`response.json().get("embedding")`) instead of returning the `None`
failure signal. -/
theorem C6_nonobject_body_raises :
    get_embedding (.response 200 (some (.arr [.num 1, .num 2]))) =
      .error .attributeError ∧
    ∀ r : Option JsonValue,
      get_embedding (.response 200 (some (.arr [.num 1, .num 2]))) ≠ .ok r :=
  ⟨rfl, fun _ h => Except.noConfusion h⟩

/-- C6 (amended): on a network error, a non-2xx (4xx/5xx) response, or a
body that is not parseable JSON, `get_embedding` returns the explicit
`None` failure signal without raising; a parseable body that is not a JSON
object instead raises an uncaught `AttributeError`. -/
theorem C6_failure_returns_sentinel (http : HttpResult)
    (h : handled_failure http = true) :
    get_embedding http = .ok none := by
  cases http with
  | requestError => rfl
  | response status body =>
    simp only [handled_failure, Bool.or_eq_true, Bool.and_eq_true, decide_eq_true_eq,
      Option.isNone_iff_eq_none] at h
    rcases h with ⟨h1, h2⟩ | hb
    · simp [get_embedding, make_api_request, h1, h2]
    · subst hb
      by_cases hs : 400 ≤ status ∧ status < 600
      · simp [get_embedding, make_api_request, hs]
      · simp [get_embedding, make_api_request, hs]

/-- C6 witness: the amended theorem applied to a 503 response. -/
theorem C6_witness :
    get_embedding (.response 503 (some (.obj [("detail", .str "overloaded")]))) =
      .ok none :=
  C6_failure_returns_sentinel _ (by decide)

/-! ### Helper lemmas for the later pipeline stages -/

/-- A non-empty list has `isEmpty = false`. -/
theorem isEmpty_eq_false_of_ne_nil {α : Type} {l : List α} (h : l ≠ []) :
    l.isEmpty = false := by
  cases l with
  | nil => exact absurd rfl h
  | cons a t => rfl

/-- A non-empty hit list yields a non-empty chunk list, so the
`if not context_chunks` guard does not fire. -/
theorem context_chunks_isEmpty_false (results : List SearchResult)
    (hne : results ≠ []) :
    ((search_and_prepare_context results).1).isEmpty = false := by
  cases results with
  | nil => exact absurd rfl hne
  | cons r l => rfl

/-- Success characterisation of the FORMAT comprehension: when
`build_answer_data` succeeds, the produced rows correspond pointwise and in
order to the answer items, each row being the singleton of the item's
`paragraph` field. -/
theorem build_answer_data_forall2 (items : List JsonValue)
    (rows : List (List JsonValue)) (h : build_answer_data items = .ok rows) :
    List.Forall₂
      (fun item row => ∃ p, pySubscript item "paragraph" = .ok p ∧ row = [p])
      items rows := by
  induction items generalizing rows with
  | nil =>
    unfold build_answer_data at h
    cases h
    exact List.Forall₂.nil
  | cons item rest ih =>
    unfold build_answer_data at h
    cases hp : pySubscript item "paragraph" with
    | error e => rw [hp] at h; exact Except.noConfusion h
    | ok p =>
      rw [hp] at h
      cases hr : build_answer_data rest with
      | error e => rw [hr] at h; exact Except.noConfusion h
      | ok tail =>
        rw [hr] at h
        cases h
        exact List.Forall₂.cons ⟨p, hp, rfl⟩ (ih tail hr)

/-! ### Claim C7 -/

/-- C7: for every pipeline execution that reaches the FORMAT state and
completes successfully, the returned answer rows are exactly the rows
`build_answer_data` produced from the answer client's list — pointwise, in
the same order, each row the singleton of that item's `paragraph` field
(no reordering, no dropped entries) — and the raw structured answer is
passed through to the state slot unmodified. -/
theorem C7_format_passthrough (env : Env) (question : String) (emb : JsonValue)
    (results : List SearchResult) (ans : List JsonValue)
    (rows : List (List JsonValue))
    (hq : question ≠ "") (hE : get_embedding env.embedHttp = .ok (some emb))
    (hT : emb.isTruthy = true) (hS : env.search = .ok results)
    (hres : results ≠ [])
    (hA : query_llm env.answerHttp = .ok ans) (hans : ans ≠ [])
    (hfmt : build_answer_data ans = .ok rows) :
    process_query_for_gradio env question =
      (.ok ⟨rows,
            ((search_and_prepare_context results).2).map fun s => [JsonValue.str s],
            ans, "*Выберите абзац из ответа...*", none⟩,
       [.embed, .search, .answer]) ∧
    List.Forall₂
      (fun item row => ∃ p, pySubscript item "paragraph" = .ok p ∧ row = [p])
      ans rows := by
  constructor
  · simp [process_query_for_gradio, if_neg hq, hE, pyNotOpt, hT,
      hS, context_chunks_isEmpty_false results hres, hA,
      isEmpty_eq_false_of_ne_nil hans, hfmt]
  · exact build_answer_data_forall2 ans rows hfmt

/-- C7 witness: the theorem applied to the spec's end-to-end example
services (healthy embedding, two hits, one-paragraph answer). -/
theorem C7_witness :
    process_query_for_gradio ⟨goodEmbedHttp, .ok [hitA, hitB], goodAnswerHttp⟩
        "Как оформить отпуск?" =
      (.ok ⟨[[.str "Отпуск оформляется по заявлению."]],
            [[.str "policy_a.pdf"], [.str "policy_b.pdf"]],
            [.obj [("paragraph", .str "Отпуск оформляется по заявлению.")]],
            "*Выберите абзац из ответа...*", none⟩,
       [.embed, .search, .answer]) ∧
    List.Forall₂
      (fun item row => ∃ p, pySubscript item "paragraph" = .ok p ∧ row = [p])
      [.obj [("paragraph", .str "Отпуск оформляется по заявлению.")]]
      [[.str "Отпуск оформляется по заявлению."]] :=
  C7_format_passthrough _ _ (.arr [.num 1]) [hitA, hitB]
    [.obj [("paragraph", .str "Отпуск оформляется по заявлению.")]]
    [[.str "Отпуск оформляется по заявлению."]]
    (by decide) rfl rfl rfl (by decide) rfl (List.cons_ne_nil _ _) rfl

/-! ### Claim C8 -/

/-- An LLM-service response whose `answer` list is non-empty but whose
single record lacks the `paragraph` field. -/
def missingFieldAnswerHttp : HttpResult :=
  .response 200 (some (.obj [("answer", .arr [.obj [("text", .str "абзац")]])]))

/-- C8 counterexample: a malformed answer — a non-empty record list whose
record lacks the `paragraph` field — is not treated like a transport
failure: the pipeline reaches FORMAT, the `KeyError` is caught there, and
the request terminates with the internal-interface-error message, which
differs from the LLM-failed-to-answer message. -/
theorem C8_missing_field_not_llm_failure :
    (process_query_for_gradio ⟨goodEmbedHttp, .ok [hitA], missingFieldAnswerHttp⟩
        "Как оформить отпуск?").1 =
      .ok ⟨[[.str "Внутренняя ошибка в интерфейсе: KeyError: paragraph"]],
           [[.str "policy_a.pdf"]], [], "Ошибка: KeyError: paragraph", none⟩ ∧
    "Внутренняя ошибка в интерфейсе: KeyError: paragraph" ≠
      "Ошибка: LLM не смог сгенерировать ответ." :=
  ⟨rfl, by decide⟩

/-- C8 (amended): every answer-client response that `query_llm` collapses
to the empty list — a transport failure, an HTTP error status, a missing
`answer` key, an `answer` value that is not a list, or an empty list — is
treated identically: the request terminates with the LLM-failed message
and nothing of the response is parsed. A transport failure yields that
same collapsed value, witnessing the identical treatment. A non-empty
record list missing the `paragraph` field is the exception recorded by the
counterexample: it fails later, inside FORMAT. -/
theorem C8_collapsed_answer_is_llm_failure (env : Env) (question : String)
    (emb : JsonValue) (results : List SearchResult)
    (hq : question ≠ "") (hE : get_embedding env.embedHttp = .ok (some emb))
    (hT : emb.isTruthy = true) (hS : env.search = .ok results)
    (hres : results ≠ [])
    (hA : query_llm env.answerHttp = .ok []) :
    process_query_for_gradio env question =
      (.ok ⟨[[.str "Ошибка: LLM не смог сгенерировать ответ."]],
            ((search_and_prepare_context results).2).map fun s => [JsonValue.str s],
            [], "*Ошибка*", none⟩,
       [.embed, .search, .answer]) ∧
    query_llm .requestError = .ok [] := by
  constructor
  · simp [process_query_for_gradio, if_neg hq, hE, pyNotOpt, hT,
      hS, context_chunks_isEmpty_false results hres, hA]
  · rfl

/-- C8 witness: the amended theorem applied to an answer service that
returns a JSON object whose `answer` value is a string, not a list. -/
theorem C8_witness :
    process_query_for_gradio
        ⟨goodEmbedHttp, .ok [hitA],
         .response 200 (some (.obj [("answer", .str "не список")]))⟩
        "Как оформить отпуск?" =
      (.ok ⟨[[.str "Ошибка: LLM не смог сгенерировать ответ."]],
            ((search_and_prepare_context [hitA]).2).map fun s => [JsonValue.str s],
            [], "*Ошибка*", none⟩,
       [.embed, .search, .answer]) ∧
    query_llm .requestError = .ok [] :=
  C8_collapsed_answer_is_llm_failure _ _ (.arr [.num 1]) [hitA]
    (by decide) rfl rfl rfl (by decide) rfl

/-! ### Claim C10 -/

/-- C10: when the search stage yields non-empty chunks but the answer
client then fails with an empty or non-list response, the returned tuple
still carries the deduplicated, sorted, non-empty source list computed
from that search alongside the LLM-error message, while the
raw-structured-answer state element is the empty list — sources are
displayed without an answer. -/
theorem C10_sources_survive_llm_failure (env : Env) (question : String)
    (emb : JsonValue) (results : List SearchResult)
    (hq : question ≠ "") (hE : get_embedding env.embedHttp = .ok (some emb))
    (hT : emb.isTruthy = true) (hS : env.search = .ok results)
    (hres : results ≠ [])
    (hA : query_llm env.answerHttp = .ok []) :
    ∃ o : GradioOutput,
      (process_query_for_gradio env question).1 = .ok o ∧
      o.sources_samples =
        ((search_and_prepare_context results).2).map (fun s => [JsonValue.str s]) ∧
      o.sources_samples ≠ [] ∧
      ((search_and_prepare_context results).2).Sorted pyStrLe ∧
      ((search_and_prepare_context results).2).Nodup ∧
      o.full_response_state = [] ∧
      o.answer_samples = [[.str "Ошибка: LLM не смог сгенерировать ответ."]] := by
  refine ⟨⟨[[.str "Ошибка: LLM не смог сгенерировать ответ."]],
           ((search_and_prepare_context results).2).map fun s => [JsonValue.str s],
           [], "*Ошибка*", none⟩,
         ?_, rfl, ?_, sources_sorted results, sources_nodup results, rfl, rfl⟩
  · simp [process_query_for_gradio, if_neg hq, hE, pyNotOpt, hT,
      hS, context_chunks_isEmpty_false results hres, hA]
  · intro hm
    exact sources_ne_nil results hres (List.map_eq_nil_iff.mp hm)

/-- C10 witness: the theorem applied to two hits from distinct files and
an answer service whose response body is not valid JSON. -/
theorem C10_witness :
    ∃ o : GradioOutput,
      (process_query_for_gradio
          ⟨goodEmbedHttp, .ok [hitB, hitA], .response 200 none⟩
          "Как оформить отпуск?").1 = .ok o ∧
      o.sources_samples =
        ((search_and_prepare_context [hitB, hitA]).2).map
          (fun s => [JsonValue.str s]) ∧
      o.sources_samples ≠ [] ∧
      ((search_and_prepare_context [hitB, hitA]).2).Sorted pyStrLe ∧
      ((search_and_prepare_context [hitB, hitA]).2).Nodup ∧
      o.full_response_state = [] ∧
      o.answer_samples = [[.str "Ошибка: LLM не смог сгенерировать ответ."]] :=
  C10_sources_survive_llm_failure _ _ (.arr [.num 1]) [hitB, hitA]
    (by decide) rfl rfl rfl (by decide) rfl

/-! ### Claim C9 -/

/-- An LLM-service response whose body is valid JSON but not an object. -/
def nonObjectAnswerHttp : HttpResult :=
  .response 200 (some (.str "плохой ответ"))

/-- C9 counterexample: a remote failure that does not map to a terminal
user-visible message: when the answer service returns a success response
whose JSON body is not an object, `query_llm` raises an uncaught
`AttributeError` and the request ends with a propagated exception, not
with any returned tuple. -/
theorem C9_remote_failure_without_message :
    (process_query_for_gradio ⟨goodEmbedHttp, .ok [hitA], nonObjectAnswerHttp⟩
        "Как оформить отпуск?").1 = .error .attributeError ∧
    ∀ o : GradioOutput,
      (process_query_for_gradio ⟨goodEmbedHttp, .ok [hitA], nonObjectAnswerHttp⟩
          "Как оформить отпуск?").1 ≠ .ok o :=
  ⟨rfl, fun _ h => Except.noConfusion h⟩

/-- C9 (amended): there is no partial-success path in the returned tuples:
whenever the pipeline returns a tuple whose raw-structured-answer state is
non-empty (an answer was produced), the source list of that tuple is
non-empty — reaching the ANSWER state requires a non-empty chunk list and
every chunk carries a source file. (The other half of the original claim —
that every remote failure maps to a terminal user-visible message — fails:
see the counterexample, where a remote failure propagates as a raised
exception instead.) -/
theorem C9_answer_only_with_sources (env : Env) (question : String)
    (o : GradioOutput)
    (h : (process_query_for_gradio env question).1 = .ok o)
    (hstate : o.full_response_state ≠ []) :
    o.sources_samples ≠ [] := by
  unfold process_query_for_gradio at h
  split at h
  · cases h
    exact absurd rfl hstate
  · split at h
    · exact Except.noConfusion h
    · split at h
      · cases h
        exact absurd rfl hstate
      · split at h
        · exact Except.noConfusion h
        · rename_i search_results heqsearch
          cases search_results with
          | nil =>
            cases h
            exact absurd rfl hstate
          | cons r l =>
            split at h
            · exact Except.noConfusion h
            · split at h
              · cases h
                exact absurd rfl hstate
              · split at h
                · cases h
                  intro hm
                  exact sources_ne_nil (r :: l) (List.cons_ne_nil r l)
                    (List.map_eq_nil_iff.mp hm)
                · cases h
                  exact absurd rfl hstate

/-- C9 witness: the amended theorem applied to the fully successful
concrete pipeline, whose state (one paragraph record) is non-empty. -/
theorem C9_witness :
    ({ answer_samples := [[.str "Отпуск оформляется по заявлению."]],
       sources_samples := [[.str "policy_a.pdf"]],
       full_response_state := [.obj [("paragraph", .str "Отпуск оформляется по заявлению.")]],
       source_details := "*Выберите абзац из ответа...*",
       file_preview := none } : GradioOutput).sources_samples ≠ [] :=
  C9_answer_only_with_sources ⟨goodEmbedHttp, .ok [hitA], goodAnswerHttp⟩
    "Как оформить отпуск?" _ rfl (List.cons_ne_nil _ _)
